import Mathlib

/-!
Verification of the resilient forecasting and dynamic-pricing core of the
brave-mcp-server repository (src/server.js), shallowly embedded in Lean 4.

Timestamps are integers (milliseconds, as from Date.now()); JavaScript
numeric computation on occupancy values is modelled over ℚ, with
Math.round embedded as Mathlib's round (both are ⌊x + 1/2⌋ on the values
that occur here).
-/

/-- The three circuit-breaker states of src/server.js line 69. -/
inductive CBState
  | CLOSED
  | OPEN
  | HALF_OPEN
  deriving DecidableEq, Repr

/-- The mutable fields of the CircuitBreaker class (src/server.js lines 64-71).
`timeout` is the cooldown duration in ms; `nextAttempt` a timestamp in ms. -/
structure CircuitBreaker where
  failureCount : ℕ
  threshold : ℕ
  timeout : ℕ
  state : CBState
  nextAttempt : ℤ
  deriving DecidableEq, Repr

/-- The constructor (src/server.js lines 65-71): failureCount 0, CLOSED,
nextAttempt = Date.now(). -/
def CircuitBreaker.init (threshold timeout : ℕ) (now : ℤ) : CircuitBreaker :=
  { failureCount := 0
    threshold := threshold
    timeout := timeout
    state := .CLOSED
    nextAttempt := now }

/-- onSuccess (src/server.js lines 93-96): reset failureCount, go CLOSED. -/
def CircuitBreaker.onSuccess (cb : CircuitBreaker) : CircuitBreaker :=
  { cb with failureCount := 0, state := .CLOSED }

/-- onFailure (src/server.js lines 98-104): increment failureCount; at the
threshold go OPEN and set nextAttempt = now + timeout. -/
def CircuitBreaker.onFailure (cb : CircuitBreaker) (now : ℤ) : CircuitBreaker :=
  let fc := cb.failureCount + 1
  if cb.threshold ≤ fc then
    { cb with
      failureCount := fc
      state := .OPEN
      nextAttempt := now + (cb.timeout : ℤ) }
  else
    { cb with failureCount := fc }

/-- Outcome of running the wrapped function under its 30 s timeout
(src/server.js line 83): either a value, or a rejection.  A rejection kind
distinguishes why the wrapped computation failed; the breaker treats every
kind alike. -/
inductive ErrKind
  | rateLimit
  | timeoutErr
  | computation
  deriving DecidableEq, Repr

/-- Result of one wrapped invocation, as seen by the breaker's try/catch. -/
inductive FnOutcome (α : Type)
  | ok (v : α)
  | err (k : ErrKind)
  deriving DecidableEq, Repr

/-- What CircuitBreaker.call returns to its caller: a thrown CircuitOpen
error carrying the remaining cooldown in whole seconds (src/server.js
line 76), a successful value, or the wrapped function's own error
re-thrown (line 89). -/
inductive CallResult (α : Type)
  | circuitOpen (remainingSec : ℤ)
  | success (v : α)
  | failure (k : ErrKind)
  deriving DecidableEq, Repr

/-- Everything observable about one execution of CircuitBreaker.call:
the value or error returned, the breaker afterwards, and whether the
wrapped function was invoked at all. -/
structure CallRes (α : Type) where
  result : CallResult α
  breaker : CircuitBreaker
  invoked : Bool
  deriving DecidableEq, Repr

/-- CircuitBreaker.call (src/server.js lines 73-91), with the wrapped
function's behaviour abstracted as its outcome and Date.now() as `now`:
if OPEN and now < nextAttempt, throw CircuitOpen with the remaining
cooldown rounded to seconds and do not invoke the function; otherwise an
OPEN breaker first moves to HALF_OPEN, the function runs, and its outcome
is fed to onSuccess / onFailure. -/
def CircuitBreaker.call (cb : CircuitBreaker) (now : ℤ) (outcome : FnOutcome α) :
    CallRes α :=
  if cb.state = .OPEN ∧ now < cb.nextAttempt then
    { result := .circuitOpen (round (((cb.nextAttempt - now : ℤ) : ℚ) / 1000))
      breaker := cb
      invoked := false }
  else
    let cb1 := if cb.state = .OPEN then { cb with state := .HALF_OPEN } else cb
    match outcome with
    | .ok v => { result := .success v, breaker := cb1.onSuccess, invoked := true }
    | .err k => { result := .failure k, breaker := cb1.onFailure now, invoked := true }

/-- A sequence of calls, each given as (Date.now() at the call, outcome of
the wrapped function were it invoked), threaded through one breaker. -/
def CircuitBreaker.callSeq (cb : CircuitBreaker) : List (ℤ × FnOutcome Unit) → CircuitBreaker
  | [] => cb
  | (t, o) :: rest => CircuitBreaker.callSeq ((cb.call t o).breaker) rest

/-- Breaker states reachable from a freshly constructed breaker by any
sequence of calls. -/
inductive CircuitBreaker.Reachable : CircuitBreaker → Prop
  | init (threshold timeout : ℕ) (now : ℤ) :
      CircuitBreaker.Reachable (CircuitBreaker.init threshold timeout now)
  | step (cb : CircuitBreaker) (now : ℤ) (outcome : FnOutcome Unit) :
      CircuitBreaker.Reachable cb →
      CircuitBreaker.Reachable ((cb.call now outcome).breaker)

/-- The rate limiter's configuration (src/server.js line 39). -/
def MIN_REQUEST_INTERVAL : ℤ := 1000

/-- Observable effect of one rateLimiter() invocation (src/server.js lines
40-46): whether it threw, and the value of lastRequestTime afterwards. -/
structure RateRes where
  accepted : Bool
  lastRequestTime : ℤ
  deriving DecidableEq, Repr

/-- rateLimiter (src/server.js lines 40-46): throw when now - lastRequestTime
< MIN_REQUEST_INTERVAL (the throw skips the assignment), else record now. -/
def rateLimiter (lastRequestTime now : ℤ) : RateRes :=
  if now - lastRequestTime < MIN_REQUEST_INTERVAL then
    { accepted := false, lastRequestTime := lastRequestTime }
  else
    { accepted := true, lastRequestTime := now }

/-- CircuitBreaker.call again (src/server.js lines 73-91), but with the
wrapped function's own side effect made explicit: the function reads and
writes an external state σ (for getARIMAForecasting this is the rate
limiter's lastRequestTime, mutated by the rateLimiter() call on line 590,
which runs inside the wrapped function).  When the breaker short-circuits
with CircuitOpen the function does not run and σ is untouched. -/
def CircuitBreaker.callSt (cb : CircuitBreaker) (now : ℤ)
    (fn : σ → FnOutcome α × σ) (st : σ) : CallRes α × σ :=
  if cb.state = .OPEN ∧ now < cb.nextAttempt then
    ({ result := .circuitOpen (round (((cb.nextAttempt - now : ℤ) : ℚ) / 1000))
       breaker := cb
       invoked := false }, st)
  else
    let cb1 := if cb.state = .OPEN then { cb with state := .HALF_OPEN } else cb
    match fn st with
    | (.ok v, st1) =>
        ({ result := .success v, breaker := cb1.onSuccess, invoked := true }, st1)
    | (.err k, st1) =>
        ({ result := .failure k, breaker := cb1.onFailure now, invoked := true }, st1)

/-- The body of the function wrapped by the breaker in getARIMAForecasting
(src/server.js lines 589-592): first rateLimiter() — whose throw becomes a
rateLimit-kind rejection of the whole wrapped function — then the forecast
computation, abstracted as its outcome `comp`. -/
def forecastingWrappedFn (comp : FnOutcome α) (now : ℤ) (lastRequestTime : ℤ) :
    FnOutcome α × ℤ :=
  let r := rateLimiter lastRequestTime now
  if r.accepted then (comp, r.lastRequestTime)
  else (.err .rateLimit, r.lastRequestTime)

/-- getARIMAForecasting's protection layer (src/server.js lines 588-592):
circuitBreakers.mcp_tools.call wrapping (rateLimiter(); forecast).
Returns the call's observable result together with lastRequestTime
afterwards. -/
def getARIMAForecastingProtected (breaker : CircuitBreaker) (lastRequestTime : ℤ)
    (now : ℤ) (comp : FnOutcome α) : CallRes α × ℤ :=
  breaker.callSt now (forecastingWrappedFn comp now) lastRequestTime

/-- The global registry of breakers (src/server.js lines 108-111): two
instances, mcp_tools with threshold 3 / 30 s cooldown and external_apis
with threshold 5 / 60 s cooldown. -/
structure CircuitBreakers where
  mcp_tools : CircuitBreaker
  external_apis : CircuitBreaker
  deriving DecidableEq, Repr

/-- The registry as initialised at module load (src/server.js lines 108-111),
with `now` the load-time Date.now(). -/
def circuitBreakersInit (now : ℤ) : CircuitBreakers :=
  { mcp_tools := CircuitBreaker.init 3 30000 now
    external_apis := CircuitBreaker.init 5 60000 now }

/-- Keys of the registry. -/
inductive BreakerKey
  | mcp_tools
  | external_apis
  deriving DecidableEq, Repr

/-- The four protected operations of src/server.js. -/
inductive Operation
  | weather_intelligence
  | events_intelligence
  | hotel_data_intelligence
  | arima_forecasting
  deriving DecidableEq, Repr

/-- Which registry breaker each protected operation calls, one case per
call site: src/server.js lines 119 (weather), 201 (events), 268 (hotel
data), 589 (ARIMA forecasting) — every one of them names
circuitBreakers.mcp_tools. -/
def operationBreakerKey : Operation → BreakerKey
  | .weather_intelligence => .mcp_tools
  | .events_intelligence => .mcp_tools
  | .hotel_data_intelligence => .mcp_tools
  | .arima_forecasting => .mcp_tools

/-- Read a registry slot. -/
def CircuitBreakers.get (b : CircuitBreakers) : BreakerKey → CircuitBreaker
  | .mcp_tools => b.mcp_tools
  | .external_apis => b.external_apis

/-- Write a registry slot. -/
def CircuitBreakers.set (b : CircuitBreakers) : BreakerKey → CircuitBreaker → CircuitBreakers
  | .mcp_tools, cb => { b with mcp_tools := cb }
  | .external_apis, cb => { b with external_apis := cb }

/-- Run one protected operation against the registry: the operation's
breaker handles the call and its updated state is stored back.  The
wrapped work is abstracted as its outcome. -/
def runOperation (b : CircuitBreakers) (op : Operation) (now : ℤ)
    (outcome : FnOutcome Unit) : CallRes Unit × CircuitBreakers :=
  let key := operationBreakerKey op
  let r := (b.get key).call now outcome
  (r, b.set key r.breaker)

/-- A sequence of protected operations run against the registry. -/
def runOperations (b : CircuitBreakers) : List (Operation × ℤ × FnOutcome Unit) → CircuitBreakers
  | [] => b
  | (op, t, o) :: rest => runOperations (runOperation b op t o).2 rest

/-- Season labels of the forecast calendar (src/server.js lines 693-714). -/
inductive Season
  | HIGH
  | MEDIUM
  | LOW
  deriving DecidableEq, Repr

/-- The AR component (src/server.js lines 717-720): take the last 14 points
of the working history (slice(-14)), fold them with weight 1 - idx*0.05 at
position idx (idx 0 = oldest of the 14), divide by the number of points
taken. -/
def arComponent (historicalOccupancy : List ℚ) : ℚ :=
  let recent14 := historicalOccupancy.drop (historicalOccupancy.length - 14)
  (recent14.enum.map (fun p => p.2 * (1 - (p.1 : ℚ) * (5 / 100)))).sum / recent14.length

/-- The per-index weight used inside arComponent. -/
def arWeight (idx : ℕ) : ℚ := 1 - (idx : ℚ) * (5 / 100)

/-- Season calendar for forecast day i with day-of-year d (src/server.js
lines 692-715): HIGH in the year-end / Jun-Jul / Mar-Apr windows
(multiplier 1.8), MEDIUM on weekend offsets of two shoulder windows
(multiplier 1.3), LOW otherwise (multiplier 0.6). -/
def seasonalInfo (d : ℕ) (i : ℕ) : ℚ × Season :=
  if (350 ≤ d ∨ d ≤ 31) ∨ (180 ≤ d ∧ d ≤ 210) ∨ (90 ≤ d ∧ d ≤ 110) then
    (18 / 10, .HIGH)
  else if ((120 ≤ d ∧ d ≤ 150) ∨ (240 ≤ d ∧ d ≤ 270)) ∧ (i % 7 = 5 ∨ i % 7 = 6) then
    (13 / 10, .MEDIUM)
  else
    (6 / 10, .LOW)

/-- Weekend boost (src/server.js lines 727-728). -/
def weekendBoost (i : ℕ) (seasonType : Season) : ℚ :=
  if i % 7 = 5 ∨ i % 7 = 6 then (if seasonType = .LOW then 25 else 12) else -8

/-- Rain-season penalty (src/server.js lines 731-732). -/
def rainPenalty (d : ℕ) : ℚ :=
  if (90 ≤ d ∧ d ≤ 150) ∨ (274 ≤ d ∧ d ≤ 334) then -12 else 0

/-- One iteration of the forecast loop (src/server.js lines 686-746), for
day i with day-of-year d, over the current working history h; n is the
length of the history at entry to extremeSeasonalityARIMA (const n,
line 681).  Yields the clamped rounded prediction and the season label. -/
def arimaStep (n : ℕ) (d : ℕ) (i : ℕ) (h : List ℚ) : ℤ × Season :=
  let ms := seasonalInfo d i
  let arComp := arComponent h
  let yearAgoIndex : ℤ := max 0 ((n : ℤ) - 365 + (i : ℤ))
  let seasonalComponent : ℚ :=
    if yearAgoIndex < (n : ℤ) then h.getD yearAgoIndex.toNat 0 else arComp
  let prediction : ℤ :=
    round ((3 / 10 : ℚ) * arComp + (5 / 10) * (seasonalComponent * ms.1)
      + (2 / 10) * weekendBoost i ms.2 + rainPenalty d)
  (max 15 (min 95 prediction), ms.2)

/-- The forecast loop (src/server.js lines 686-747): k days remaining,
current day index i, working history h; each produced value is appended to
the working history (line 746) before the next day runs.  Returns the
forecast, the season labels, and the final working history. -/
def arimaLoop (dayOfYearAt : ℕ → ℕ) (n : ℕ) :
    ℕ → ℕ → List ℚ → List ℤ × List Season × List ℚ
  | 0, _, h => ([], [], h)
  | k + 1, i, h =>
      let ps := arimaStep n (dayOfYearAt i) i h
      let r := arimaLoop dayOfYearAt n k (i + 1) (h ++ [(ps.1 : ℚ)])
      (ps.1 :: r.1, ps.2 :: r.2.1, r.2.2)

/-- extremeSeasonalityARIMA (src/server.js lines 680-750).  `dayOfYearAt i`
is the day-of-year of today + i as computed on lines 687-689 (the only
use the function makes of the environment); the input list is mutated by
the push on line 746, so the final working history is returned
explicitly. -/
def extremeSeasonalityARIMA (dayOfYearAt : ℕ → ℕ) (historicalOccupancy : List ℚ)
    (forecastDays : ℕ) : List ℤ × List Season × List ℚ :=
  arimaLoop dayOfYearAt historicalOccupancy.length forecastDays 0 historicalOccupancy

/-- Pricing strategy labels (src/server.js lines 779-795). -/
inductive Strategy
  | MAXIMIZE_REVENUE
  | OPTIMIZE_MIX
  | SURVIVAL_PRICING
  | FILL_INVENTORY
  | COMPETITIVE_RATE
  deriving DecidableEq, Repr

/-- Revenue focus labels (src/server.js line 804). -/
inductive RevenueFocus
  | VOLUME
  | YIELD
  deriving DecidableEq, Repr

/-- One element of pricingRecommendations (src/server.js lines 798-805). -/
structure PricingRec where
  day : ℕ
  predicted_occupancy : ℤ
  season_type : Season
  pricing_strategy : Strategy
  recommended_adr : ℤ
  revenue_focus : RevenueFocus
  deriving DecidableEq, Repr

/-- The multiplier/strategy policy (src/server.js lines 779-796). -/
def pricingPolicy (season : Season) (occ : ℤ) : ℚ × Strategy :=
  match season with
  | .HIGH => (14 / 10, .MAXIMIZE_REVENUE)
  | .MEDIUM => (11 / 10, .OPTIMIZE_MIX)
  | .LOW =>
      if occ < 25 then (65 / 100, .SURVIVAL_PRICING)
      else if occ < 40 then (80 / 100, .FILL_INVENTORY)
      else (90 / 100, .COMPETITIVE_RATE)

/-- One day of pricingRecommendations (src/server.js lines 774-806):
index is the 0-based map index, occ the forecast occupancy, season the
matching seasonalPatterns entry. -/
def pricingRec (baseADR : ℚ) (occ : ℤ) (season : Season) (index : ℕ) : PricingRec :=
  let ms := pricingPolicy season occ
  { day := index + 1
    predicted_occupancy := occ
    season_type := season
    pricing_strategy := ms.2
    recommended_adr := round (baseADR * ms.1)
    revenue_focus := if season = .LOW then .VOLUME else .YIELD }

/-- pricingRecommendations (src/server.js lines 774-806): the forecast and
its season labels are consumed in lockstep (seasonalPatterns[index] for the
occupancy at the same index). -/
def pricingRecommendations (baseADR : ℚ) (forecast : List ℤ)
    (patterns : List Season) : List PricingRec :=
  (forecast.zip patterns).enum.map (fun p => pricingRec baseADR p.2.1 p.2.2 p.1)

/-- One element of the criticalPeriods computation before filtering
(src/server.js lines 840-845). -/
structure CriticalPeriod where
  day : ℕ
  occupancy : ℤ
  is_critical : Bool
  survival_rate : ℤ
  break_even_occupancy : ℤ
  deriving DecidableEq, Repr

/-- The per-day record of src/server.js lines 840-845. -/
def criticalPeriodEntry (baseADR : ℚ) (index : ℕ) (occ : ℤ) : CriticalPeriod :=
  { day := index + 1
    occupancy := occ
    is_critical := decide (occ < 30)
    survival_rate := round (baseADR * (65 / 100))
    break_even_occupancy := 28 }

/-- criticalPeriods (src/server.js lines 840-846): map every forecast day to
its record, then keep the critical ones. -/
def criticalPeriods (baseADR : ℚ) (forecast : List ℤ) : List CriticalPeriod :=
  (forecast.enum.map (fun p => criticalPeriodEntry baseADR p.1 p.2)).filter
    (fun d => d.is_critical)

/-- An element of the historical-data array handed to getARIMAForecasting
(src/server.js lines 667-674 give the generated shape; a caller-supplied
array has the same fields). -/
structure HistPoint where
  date : ℤ
  occupancy : ℚ
  adr : ℚ
  season : Season
  deriving DecidableEq, Repr

/-- The forecast-generation fragment of getARIMAForecasting (src/server.js
lines 753-755), with the heap objects explicit: the caller's array `data`
is one object, and `data.map(d => d.occupancy)` (line 754) allocates a
fresh occupancyHistory object; extremeSeasonalityARIMA's pushes (line 746)
land on that fresh object, which is returned in its final state.  The
first component is the caller's array as it stands after the call. -/
def forecastCore (dayOfYearAt : ℕ → ℕ) (data : List HistPoint) :
    List HistPoint × List ℚ × List ℤ × List Season :=
  let occupancyHistory := data.map (fun d => d.occupancy)
  let r := extremeSeasonalityARIMA dayOfYearAt occupancyHistory 30
  (data, r.2.2, r.1, r.2.1)

/-- A list of failing calls: at each listed time the wrapped function
rejects with the listed kind. -/
def errCalls (l : List (ℤ × ErrKind)) : List (ℤ × FnOutcome Unit) :=
  l.map (fun p => (p.1, .err p.2))

theorem callSeq_closed_below_threshold (l : List (ℤ × ErrKind)) :
    ∀ cb : CircuitBreaker, cb.state = .CLOSED →
    cb.failureCount + l.length < cb.threshold →
    cb.callSeq (errCalls l) = { cb with failureCount := cb.failureCount + l.length } := by
  induction l with
  | nil =>
      intro cb hstate _
      show cb = { cb with failureCount := cb.failureCount + 0 }
      simp
  | cons p rest ih =>
      intro cb hstate hlt
      have hlt2 : cb.failureCount + (rest.length + 1) < cb.threshold := by
        rw [List.length_cons] at hlt; exact hlt
      have hopen : ¬(cb.state = .OPEN ∧ p.1 < cb.nextAttempt) := by
        rw [hstate]; simp
      have hnotOpen : ¬cb.state = .OPEN := by rw [hstate]; simp
      have hfc : ¬(cb.threshold ≤ cb.failureCount + 1) := by omega
      have hstep : (cb.call p.1 (FnOutcome.err p.2 (α := Unit))).breaker =
          { cb with failureCount := cb.failureCount + 1 } := by
        simp [CircuitBreaker.call, hopen, hnotOpen, CircuitBreaker.onFailure, hfc]
      show CircuitBreaker.callSeq ((cb.call p.1 (FnOutcome.err p.2)).breaker) (errCalls rest) =
        { cb with failureCount := cb.failureCount + (p :: rest).length }
      rw [hstep]
      rw [ih { cb with failureCount := cb.failureCount + 1 } (by exact hstate)
        (by show cb.failureCount + 1 + rest.length < cb.threshold; omega)]
      show ({ cb with failureCount := cb.failureCount + 1 + rest.length } : CircuitBreaker) =
        { cb with failureCount := cb.failureCount + (p :: rest).length }
      congr 1
      rw [List.length_cons]
      omega

/-- Claim C1: for every threshold T, starting from CLOSED with
failureCount 0, exactly T consecutive failed calls move the breaker to
OPEN — after the first T-1 failures it is still CLOSED, and the T-th
failure triggers the transition, setting nextAttempt to the time of that
T-th failure plus the configured cooldown duration. -/
theorem C1_threshold_failures_trip_open (T cooldown : ℕ) (t0 : ℤ)
    (pre : List (ℤ × ErrKind)) (tT : ℤ) (kT : ErrKind)
    (hT : pre.length + 1 = T) :
    ((CircuitBreaker.init T cooldown t0).callSeq (errCalls pre)).state = .CLOSED ∧
    ((CircuitBreaker.init T cooldown t0).callSeq (errCalls pre)).failureCount = T - 1 ∧
    ((((CircuitBreaker.init T cooldown t0).callSeq (errCalls pre)).call tT
        (FnOutcome.err kT (α := Unit))).breaker).state = .OPEN ∧
    ((((CircuitBreaker.init T cooldown t0).callSeq (errCalls pre)).call tT
        (FnOutcome.err kT (α := Unit))).breaker).nextAttempt = tT + (cooldown : ℤ) := by
  have hpre := callSeq_closed_below_threshold pre (CircuitBreaker.init T cooldown t0)
    (by rfl) (by simp [CircuitBreaker.init]; omega)
  have hcond : T ≤ pre.length + 1 := by omega
  refine ⟨?_, ?_, ?_, ?_⟩ <;> rw [hpre]
  all_goals simp [CircuitBreaker.call, CircuitBreaker.onFailure, CircuitBreaker.init, hcond]
  all_goals omega

/-- Witness for C1 at T = 2: one failure leaves the breaker CLOSED with
failureCount 1, the second failure opens it with nextAttempt 7 + 100. -/
theorem C1_threshold_failures_trip_open_witness :
    [(5, ErrKind.computation)].length + 1 = 2 ∧
    (((CircuitBreaker.init 2 100 0).callSeq (errCalls [(5, .computation)])).state = .CLOSED ∧
     ((CircuitBreaker.init 2 100 0).callSeq (errCalls [(5, .computation)])).failureCount = 1 ∧
     ((((CircuitBreaker.init 2 100 0).callSeq (errCalls [(5, .computation)])).call 7
         (FnOutcome.err .computation (α := Unit))).breaker).state = .OPEN ∧
     ((((CircuitBreaker.init 2 100 0).callSeq (errCalls [(5, .computation)])).call 7
         (FnOutcome.err .computation (α := Unit))).breaker).nextAttempt = 7 + (100 : ℤ)) :=
  ⟨by decide, C1_threshold_failures_trip_open 2 100 0 [(5, .computation)] 7 .computation (by decide)⟩

/-- The lifecycle invariant behind the HALF_OPEN behaviour: whenever the
breaker is OPEN or HALF_OPEN, failureCount has already reached the
threshold (nothing below onSuccess ever lowers it), so the next onFailure
necessarily re-opens the breaker. -/
def CircuitBreaker.Inv (cb : CircuitBreaker) : Prop :=
  (cb.state = .OPEN ∨ cb.state = .HALF_OPEN) → cb.threshold ≤ cb.failureCount

theorem call_preserves_inv (cb : CircuitBreaker) (now : ℤ) (o : FnOutcome Unit)
    (hinv : cb.Inv) : ((cb.call now o).breaker).Inv := by
  unfold CircuitBreaker.Inv at hinv ⊢
  unfold CircuitBreaker.call
  by_cases hblock : cb.state = .OPEN ∧ now < cb.nextAttempt
  · simp only [hblock, if_true]
    intro _
    exact hinv (Or.inl hblock.1)
  · simp only [hblock, if_false]
    by_cases hop : cb.state = .OPEN
    · simp only [hop, if_true]
      cases o with
      | ok v => simp [CircuitBreaker.onSuccess]
      | err k =>
          simp only [CircuitBreaker.onFailure]
          have hfc : cb.threshold ≤ cb.failureCount := hinv (Or.inl hop)
          have htr : cb.threshold ≤ cb.failureCount + 1 := by omega
          simp only [htr, if_true]
          intro _
          trivial
    · simp only [hop, if_false]
      cases o with
      | ok v => simp [CircuitBreaker.onSuccess]
      | err k =>
          simp only [CircuitBreaker.onFailure]
          by_cases htr : cb.threshold ≤ cb.failureCount + 1
          · simp only [htr, if_true]
            intro _
            trivial
          · simp only [htr, if_false]
            intro hstate
            have := hinv hstate
            omega

theorem reachable_inv (cb : CircuitBreaker) (h : cb.Reachable) : cb.Inv := by
  induction h with
  | init threshold timeout now =>
      intro hstate
      simp [CircuitBreaker.init] at hstate
  | step cb now o _ ih => exact call_preserves_inv cb now o ih

/-- Claim C2: CircuitBreaker.call follows the specified state machine.
While OPEN with now < nextAttempt every call returns CircuitOpen carrying
the remaining cooldown in rounded seconds, leaves the breaker untouched
and never invokes the wrapped function; once now ≥ nextAttempt the call
proceeds (the wrapped function is invoked, via the transient HALF_OPEN
state); a success observed in HALF_OPEN — or on the trial call that just
left OPEN — yields CLOSED with failureCount 0; a failure there returns
the breaker to OPEN with nextAttempt rescheduled to now + cooldown (this
last clause uses the reachability invariant: an OPEN or HALF_OPEN breaker
always has failureCount ≥ threshold). -/
theorem C2_call_state_machine (cb : CircuitBreaker) (hreach : cb.Reachable)
    (now : ℤ) (k : ErrKind) :
    (∀ o : FnOutcome Unit, cb.state = .OPEN → now < cb.nextAttempt →
      cb.call now o =
        { result := .circuitOpen (round (((cb.nextAttempt - now : ℤ) : ℚ) / 1000))
          breaker := cb
          invoked := false }) ∧
    (∀ o : FnOutcome Unit, cb.state = .OPEN → cb.nextAttempt ≤ now →
      (cb.call now o).invoked = true) ∧
    ((cb.state = .HALF_OPEN ∨ (cb.state = .OPEN ∧ cb.nextAttempt ≤ now)) →
      (cb.call now (FnOutcome.ok ())).breaker.state = .CLOSED ∧
      (cb.call now (FnOutcome.ok ())).breaker.failureCount = 0) ∧
    ((cb.state = .HALF_OPEN ∨ (cb.state = .OPEN ∧ cb.nextAttempt ≤ now)) →
      (cb.call now (FnOutcome.err k (α := Unit))).breaker.state = .OPEN ∧
      (cb.call now (FnOutcome.err k (α := Unit))).breaker.nextAttempt
        = now + (cb.timeout : ℤ)) := by
  refine ⟨?_, ?_, ?_, ?_⟩
  · intro o hst hlt
    simp [CircuitBreaker.call, hst, hlt]
  · intro o hst hge
    have hnlt : ¬now < cb.nextAttempt := not_lt.mpr hge
    cases o with
    | ok v => simp [CircuitBreaker.call, hst, hnlt]
    | err kk => simp [CircuitBreaker.call, hst, hnlt]
  · intro hcase
    rcases hcase with hh | ⟨ho, hge⟩
    · have hblock : ¬(cb.state = .OPEN ∧ now < cb.nextAttempt) := by
        rw [hh]; simp
      have hnotOpen : ¬cb.state = .OPEN := by rw [hh]; simp
      simp [CircuitBreaker.call, hblock, hnotOpen, CircuitBreaker.onSuccess]
    · have hblock : ¬(cb.state = .OPEN ∧ now < cb.nextAttempt) := fun hc =>
        absurd hc.2 (not_lt.mpr hge)
      simp [CircuitBreaker.call, hblock, ho, not_lt.mpr hge, CircuitBreaker.onSuccess]
  · intro hcase
    have hinv := reachable_inv cb hreach
    have hfc : cb.threshold ≤ cb.failureCount :=
      hinv (hcase.elim (fun h => Or.inr h) (fun h => Or.inl h.1))
    have htr : cb.threshold ≤ cb.failureCount + 1 := by omega
    rcases hcase with hh | ⟨ho, hge⟩
    · have hblock : ¬(cb.state = .OPEN ∧ now < cb.nextAttempt) := by
        rw [hh]; simp
      have hnotOpen : ¬cb.state = .OPEN := by rw [hh]; simp
      simp [CircuitBreaker.call, hblock, hnotOpen, CircuitBreaker.onFailure, htr]
    · have hblock : ¬(cb.state = .OPEN ∧ now < cb.nextAttempt) := fun hc =>
        absurd hc.2 (not_lt.mpr hge)
      simp [CircuitBreaker.call, hblock, ho, not_lt.mpr hge, CircuitBreaker.onFailure, htr]

/-- Witness for C2: a breaker opened by one failure (threshold 1, cooldown
5000 ms, opened at time 0) rejects a call at time 1000 with CircuitOpen
carrying round(4000/1000) = 4 remaining seconds, without invoking the
wrapped function. -/
theorem C2_call_state_machine_witness :
    (((CircuitBreaker.init 1 5000 0).call 0
        (FnOutcome.err .computation (α := Unit))).breaker.call 1000
        (FnOutcome.ok ())).result = CallResult.circuitOpen 4 ∧
    (((CircuitBreaker.init 1 5000 0).call 0
        (FnOutcome.err .computation (α := Unit))).breaker.call 1000
        (FnOutcome.ok ())).invoked = false := by
  have h := C2_call_state_machine _
    (CircuitBreaker.Reachable.step _ 0 (FnOutcome.err .computation)
      (CircuitBreaker.Reachable.init 1 5000 0)) 1000 ErrKind.computation
  have heq := h.1 (FnOutcome.ok ()) (by decide) (by decide)
  rw [heq]
  refine ⟨?_, rfl⟩
  show CallResult.circuitOpen (round (((5000 - 1000 : ℤ) : ℚ) / 1000))
    = CallResult.circuitOpen 4
  norm_num [round_eq]

/-- Claim C7: rateLimiter fails exactly when invoked strictly less than
MIN_REQUEST_INTERVAL (1000 ms) after the reference timestamp; a rejected
call leaves lastRequestTime unchanged, an accepted call records now; and
two calls spaced at least the interval apart (the first itself eligible)
both succeed. -/
theorem C7_rate_gate_iff (last now t1 t2 : ℤ)
    (h1 : MIN_REQUEST_INTERVAL ≤ t1 - last) (h2 : MIN_REQUEST_INTERVAL ≤ t2 - t1) :
    ((rateLimiter last now).accepted = false ↔ now - last < MIN_REQUEST_INTERVAL) ∧
    ((rateLimiter last now).accepted = false →
      (rateLimiter last now).lastRequestTime = last) ∧
    ((rateLimiter last now).accepted = true →
      (rateLimiter last now).lastRequestTime = now) ∧
    (rateLimiter last t1).accepted = true ∧
    (rateLimiter (rateLimiter last t1).lastRequestTime t2).accepted = true := by
  simp only [MIN_REQUEST_INTERVAL] at h1 h2 ⊢
  have hc1 : ¬(t1 - last < 1000) := by omega
  have hc2 : ¬(t2 - t1 < 1000) := by omega
  refine ⟨?_, ?_, ?_, ?_, ?_⟩
  · by_cases hc : now - last < 1000 <;>
      simp [rateLimiter, MIN_REQUEST_INTERVAL, hc]
  · intro hacc
    by_cases hc : now - last < 1000
    · simp [rateLimiter, MIN_REQUEST_INTERVAL, hc]
    · simp [rateLimiter, MIN_REQUEST_INTERVAL, hc] at hacc
  · intro hacc
    by_cases hc : now - last < 1000
    · simp [rateLimiter, MIN_REQUEST_INTERVAL, hc] at hacc
    · simp [rateLimiter, MIN_REQUEST_INTERVAL, hc]
  · simp [rateLimiter, MIN_REQUEST_INTERVAL, hc1]
  · simp [rateLimiter, MIN_REQUEST_INTERVAL, hc1, hc2]

/-- Witness for C7: with the accepted check at time 0, a call at 500 is
rejected, a call at 1000 is accepted, and a follow-up at 2000 is accepted
again. -/
theorem C7_rate_gate_iff_witness :
    MIN_REQUEST_INTERVAL ≤ (1000 : ℤ) - 0 ∧ MIN_REQUEST_INTERVAL ≤ (2000 : ℤ) - 1000 ∧
    (rateLimiter 0 1000).accepted = true ∧
    (rateLimiter (rateLimiter 0 1000).lastRequestTime 2000).accepted = true ∧
    (rateLimiter 0 500).accepted = false :=
  ⟨by decide, by decide,
   (C7_rate_gate_iff 0 500 1000 2000 (by decide) (by decide)).2.2.2.1,
   (C7_rate_gate_iff 0 500 1000 2000 (by decide) (by decide)).2.2.2.2,
   (C7_rate_gate_iff 0 500 1000 2000 (by decide) (by decide)).1.mpr (by decide)⟩

/-- Counterexample to claim C3: the rate gate runs inside the function the
breaker wraps (src/server.js lines 589-590), not before the breaker, so a
rate-limited call is caught by the breaker's catch and counted.  Concretely,
with the forecasting breaker fresh (CLOSED, failureCount 0) and the previous
request 500 ms ago, the call is rejected as rate-limited AND the breaker's
failureCount becomes 1 — not 0 as the claim requires. -/
theorem C3_counterexample :
    (getARIMAForecastingProtected (CircuitBreaker.init 3 30000 0) 0 500
      (FnOutcome.ok ())).1.result = CallResult.failure .rateLimit ∧
    (CircuitBreaker.init 3 30000 0).failureCount = 0 ∧
    (getARIMAForecastingProtected (CircuitBreaker.init 3 30000 0) 0 500
      (FnOutcome.ok ())).1.breaker.failureCount = 1 := by
  refine ⟨?_, rfl, ?_⟩ <;> rfl

/-- Claim C3 as amended: the rate gate is checked inside the wrapped
computation, after the breaker admits the call; a call rejected with
RateLimitExceeded is therefore counted as a breaker failure — it increments
failureCount, leaves lastRequestTime unchanged, and at the threshold it
trips the breaker OPEN. -/
theorem C3_rate_limited_call_is_breaker_failure (cb : CircuitBreaker)
    (last now : ℤ) (comp : FnOutcome Unit)
    (hpass : ¬(cb.state = .OPEN ∧ now < cb.nextAttempt))
    (hrl : now - last < MIN_REQUEST_INTERVAL) :
    (getARIMAForecastingProtected cb last now comp).1.result
      = CallResult.failure .rateLimit ∧
    (getARIMAForecastingProtected cb last now comp).1.breaker.failureCount
      = cb.failureCount + 1 ∧
    (getARIMAForecastingProtected cb last now comp).2 = last ∧
    (cb.threshold ≤ cb.failureCount + 1 →
      (getARIMAForecastingProtected cb last now comp).1.breaker.state = .OPEN ∧
      (getARIMAForecastingProtected cb last now comp).1.breaker.nextAttempt
        = now + (cb.timeout : ℤ)) := by
  have hwf : forecastingWrappedFn comp now last
      = (FnOutcome.err .rateLimit, last) := by
    simp [forecastingWrappedFn, rateLimiter, hrl]
  unfold getARIMAForecastingProtected CircuitBreaker.callSt
  rw [if_neg hpass, hwf]
  by_cases hop : cb.state = .OPEN <;>
    by_cases htr : cb.threshold ≤ cb.failureCount + 1 <;>
    simp [hop, htr, CircuitBreaker.onFailure]

/-- Witness for C3's amended theorem: a fresh threshold-1 breaker,
rate-limited call at time 500 after a request at time 0 — the result is a
rate-limit failure and the breaker trips OPEN with nextAttempt 500 + 30000. -/
theorem C3_rate_limited_call_is_breaker_failure_witness :
    (¬((CircuitBreaker.init 1 30000 0).state = .OPEN ∧ (500 : ℤ) < (CircuitBreaker.init 1 30000 0).nextAttempt)) ∧
    ((500 : ℤ) - 0 < MIN_REQUEST_INTERVAL) ∧
    (getARIMAForecastingProtected (CircuitBreaker.init 1 30000 0) 0 500
      (FnOutcome.ok ())).1.result = CallResult.failure .rateLimit ∧
    (getARIMAForecastingProtected (CircuitBreaker.init 1 30000 0) 0 500
      (FnOutcome.ok ())).1.breaker.state = .OPEN ∧
    (getARIMAForecastingProtected (CircuitBreaker.init 1 30000 0) 0 500
      (FnOutcome.ok ())).1.breaker.nextAttempt = 500 + (30000 : ℤ) :=
  ⟨by decide, by decide,
   (C3_rate_limited_call_is_breaker_failure (CircuitBreaker.init 1 30000 0) 0 500
     (FnOutcome.ok ()) (by decide) (by decide)).1,
   ((C3_rate_limited_call_is_breaker_failure (CircuitBreaker.init 1 30000 0) 0 500
     (FnOutcome.ok ()) (by decide) (by decide)).2.2.2 (by decide)).1,
   ((C3_rate_limited_call_is_breaker_failure (CircuitBreaker.init 1 30000 0) 0 500
     (FnOutcome.ok ()) (by decide) (by decide)).2.2.2 (by decide)).2⟩

/-- Counterexample to claim C8: weather, events and forecasting all call
the same circuitBreakers.mcp_tools instance (src/server.js lines 119, 201,
589), so external-API failures do change the forecasting operation's
breaker.  Concretely, three failed weather calls at time 0 drive the
breaker that the forecasting operation uses to failureCount 3 and OPEN,
and a forecasting call at time 1000 is rejected with CircuitOpen (29 s
remaining) without its wrapped function running — contradicting both the
unchanged-state part and the never-rejected part of the claim. -/
theorem C8_counterexample :
    ((runOperations (circuitBreakersInit 0)
        [(.weather_intelligence, 0, .err .computation),
         (.weather_intelligence, 0, .err .computation),
         (.weather_intelligence, 0, .err .computation)]).get
      (operationBreakerKey .arima_forecasting)).failureCount = 3 ∧
    ((runOperations (circuitBreakersInit 0)
        [(.weather_intelligence, 0, .err .computation),
         (.weather_intelligence, 0, .err .computation),
         (.weather_intelligence, 0, .err .computation)]).get
      (operationBreakerKey .arima_forecasting)).state = .OPEN ∧
    (runOperation (runOperations (circuitBreakersInit 0)
        [(.weather_intelligence, 0, .err .computation),
         (.weather_intelligence, 0, .err .computation),
         (.weather_intelligence, 0, .err .computation)])
      .arima_forecasting 1000 (FnOutcome.ok ())).1.invoked = false ∧
    (runOperation (runOperations (circuitBreakersInit 0)
        [(.weather_intelligence, 0, .err .computation),
         (.weather_intelligence, 0, .err .computation),
         (.weather_intelligence, 0, .err .computation)])
      .arima_forecasting 1000 (FnOutcome.ok ())).1.result
      = CallResult.circuitOpen 29 := by
  refine ⟨by decide, by decide, by decide, ?_⟩
  show (CallResult.circuitOpen (round (((30000 - 1000 : ℤ) : ℚ) / 1000)) : CallResult Unit)
    = CallResult.circuitOpen 29
  norm_num [round_eq]

/-- Claim C8 as amended: the registry does hold two distinct breaker
instances with the stated configurations (mcp_tools: 3 failures / 30 s;
external_apis: 5 failures / 60 s), but every protected operation — weather,
events, hotel data and forecasting alike — uses the mcp_tools instance, so
running any operation (in particular a failing external-API one) rewrites
exactly the breaker the forecasting operation reads. -/
theorem C8_operations_share_mcp_tools (t0 now : ℤ) (op : Operation)
    (b : CircuitBreakers) (o : FnOutcome Unit) :
    (circuitBreakersInit t0).mcp_tools = CircuitBreaker.init 3 30000 t0 ∧
    (circuitBreakersInit t0).external_apis = CircuitBreaker.init 5 60000 t0 ∧
    operationBreakerKey op = .mcp_tools ∧
    (runOperation b op now o).2.get (operationBreakerKey .arima_forecasting)
      = (b.mcp_tools.call now o).breaker := by
  refine ⟨rfl, rfl, ?_, ?_⟩ <;>
    cases op <;>
    simp [operationBreakerKey, runOperation, CircuitBreakers.get, CircuitBreakers.set]

/-- Claim C5: the pricing policy is the exact table of src/server.js lines
779-805 — HIGH: multiplier 1.4 / MAXIMIZE_REVENUE; MEDIUM: 1.1 /
OPTIMIZE_MIX; LOW with occupancy < 25: 0.65 / SURVIVAL_PRICING; LOW with
25 ≤ occupancy < 40: 0.80 / FILL_INVENTORY; LOW with occupancy ≥ 40: 0.90 /
COMPETITIVE_RATE; revenue_focus is VOLUME exactly for LOW; and
recommended_adr = round(baseADR * priceMultiplier). -/
theorem C5_pricing_policy_table (baseADR : ℚ) (occ : ℤ) (idx : ℕ) (s : Season) :
    pricingRec baseADR occ .HIGH idx =
      { day := idx + 1
        predicted_occupancy := occ
        season_type := .HIGH
        pricing_strategy := .MAXIMIZE_REVENUE
        recommended_adr := round (baseADR * (14 / 10))
        revenue_focus := .YIELD } ∧
    pricingRec baseADR occ .MEDIUM idx =
      { day := idx + 1
        predicted_occupancy := occ
        season_type := .MEDIUM
        pricing_strategy := .OPTIMIZE_MIX
        recommended_adr := round (baseADR * (11 / 10))
        revenue_focus := .YIELD } ∧
    (occ < 25 → pricingRec baseADR occ .LOW idx =
      { day := idx + 1
        predicted_occupancy := occ
        season_type := .LOW
        pricing_strategy := .SURVIVAL_PRICING
        recommended_adr := round (baseADR * (65 / 100))
        revenue_focus := .VOLUME }) ∧
    (25 ≤ occ → occ < 40 → pricingRec baseADR occ .LOW idx =
      { day := idx + 1
        predicted_occupancy := occ
        season_type := .LOW
        pricing_strategy := .FILL_INVENTORY
        recommended_adr := round (baseADR * (80 / 100))
        revenue_focus := .VOLUME }) ∧
    (40 ≤ occ → pricingRec baseADR occ .LOW idx =
      { day := idx + 1
        predicted_occupancy := occ
        season_type := .LOW
        pricing_strategy := .COMPETITIVE_RATE
        recommended_adr := round (baseADR * (90 / 100))
        revenue_focus := .VOLUME }) ∧
    ((pricingRec baseADR occ s idx).revenue_focus = .VOLUME ↔ s = .LOW) := by
  refine ⟨rfl, rfl, ?_, ?_, ?_, ?_⟩
  · intro h
    simp [pricingRec, pricingPolicy, h]
  · intro h1 h2
    have hn : ¬occ < 25 := by omega
    simp [pricingRec, pricingPolicy, hn, h2]
  · intro h
    have hn1 : ¬occ < 25 := by omega
    have hn2 : ¬occ < 40 := by omega
    simp [pricingRec, pricingPolicy, hn1, hn2]
  · cases s <;> simp [pricingRec, pricingPolicy]

/-- Witness for C5 at the spec's own example: occupancy 20 in LOW season
with base ADR 250000 yields SURVIVAL_PRICING at round(250000·0.65) =
162500, revenue focus VOLUME. -/
theorem C5_pricing_policy_table_witness :
    (20 : ℤ) < 25 ∧
    pricingRec 250000 20 .LOW 0 =
      { day := 1
        predicted_occupancy := 20
        season_type := .LOW
        pricing_strategy := .SURVIVAL_PRICING
        recommended_adr := 162500
        revenue_focus := .VOLUME } := by
  refine ⟨by decide, ?_⟩
  have h := (C5_pricing_policy_table 250000 20 0 Season.LOW).2.2.1 (by decide)
  rw [h]
  simp only [PricingRec.mk.injEq]
  norm_num [round_eq]

theorem enumFrom_filter_snd_length (q : ℤ → Bool) :
    ∀ (i : ℕ) (l : List ℤ),
    ((List.enumFrom i l).filter (fun p => q p.2)).length = (l.filter q).length := by
  intro i l
  induction l generalizing i with
  | nil => simp
  | cons a t ih =>
      by_cases hq : q a
      · simp [List.enumFrom, List.filter_cons, hq, ih]
      · simp [List.enumFrom, List.filter_cons, hq, ih]

/-- Claim C6: the CriticalPeriods are exactly the forecast days with
predicted occupancy < 30 (src/server.js lines 840-846): the list equals the
sub-30 days of the enumerated forecast mapped to their records, its length
equals the count of forecast values below 30, and every member has
occupancy < 30 (so a 35%-occupancy day is never critical), survival_rate =
round(baseADR · 0.65) and break_even_occupancy = 28. -/
theorem C6_critical_periods (baseADR : ℚ) (forecast : List ℤ) (cp : CriticalPeriod)
    (hcp : cp ∈ criticalPeriods baseADR forecast) :
    criticalPeriods baseADR forecast =
      (forecast.enum.filter (fun p => decide (p.2 < 30))).map
        (fun p => criticalPeriodEntry baseADR p.1 p.2) ∧
    (criticalPeriods baseADR forecast).length
      = (forecast.filter (fun o => decide (o < 30))).length ∧
    cp.occupancy < 30 ∧
    cp.survival_rate = round (baseADR * (65 / 100)) ∧
    cp.break_even_occupancy = 28 := by
  have hpred : ((fun d : CriticalPeriod => d.is_critical) ∘
      (fun p : ℕ × ℤ => criticalPeriodEntry baseADR p.1 p.2))
      = (fun p : ℕ × ℤ => decide (p.2 < 30)) := by
    funext p
    simp [criticalPeriodEntry]
  have hmain : criticalPeriods baseADR forecast =
      (forecast.enum.filter (fun p => decide (p.2 < 30))).map
        (fun p => criticalPeriodEntry baseADR p.1 p.2) := by
    unfold criticalPeriods
    rw [List.filter_map (fun p : ℕ × ℤ => criticalPeriodEntry baseADR p.1 p.2)
      forecast.enum, hpred]
  refine ⟨hmain, ?_, ?_, ?_, ?_⟩
  · rw [hmain, List.length_map]
    show ((List.enumFrom 0 forecast).filter fun p => decide (p.2 < 30)).length
      = (forecast.filter fun o => decide (o < 30)).length
    exact enumFrom_filter_snd_length (fun o => decide (o < 30)) 0 forecast
  all_goals {
    rw [hmain] at hcp
    obtain ⟨p, hp, hpe⟩ := List.mem_map.mp hcp
    have hlt : p.2 < 30 := by
      have := (List.mem_filter.mp hp).2
      simpa using this
    subst hpe
    simp [criticalPeriodEntry, hlt]
  }

/-- Witness for C6 at the spec's example: forecast [25, 35] with base ADR
100 yields exactly one critical period — day 1 at 25% — with survival rate
round(100·0.65) = 65 and break-even 28; the 35% day is not critical. -/
theorem C6_critical_periods_witness :
    criticalPeriodEntry 100 0 25 ∈ criticalPeriods 100 [25, 35] ∧
    (criticalPeriods 100 [25, 35]).length = 1 ∧
    (criticalPeriodEntry 100 0 25).occupancy < 30 ∧
    (criticalPeriodEntry 100 0 25).survival_rate = 65 ∧
    (criticalPeriodEntry 100 0 25).break_even_occupancy = 28 := by
  have hl : criticalPeriods 100 [25, 35] = [criticalPeriodEntry 100 0 25] := rfl
  have hcp : criticalPeriodEntry 100 0 25 ∈ criticalPeriods 100 [25, 35] := by
    rw [hl]
    exact List.mem_singleton.mpr rfl
  have h := C6_critical_periods 100 [25, 35] (criticalPeriodEntry 100 0 25) hcp
  refine ⟨hcp, ?_, h.2.2.1, ?_, h.2.2.2.2⟩
  · rw [h.2.1]
    decide
  · rw [h.2.2.2.1]
    norm_num [round_eq]

/-- Counterexample to claim C4: the AR weights 1 - idx·0.05 (src/server.js
line 720) are applied with idx 0 at the OLDEST of the last 14 points and
idx 13 at the most recent, so the largest weight falls on the oldest, not
the most recent.  Concretely, a history whose entire mass (value 14) sits
on the most recent point yields a strictly SMALLER AR component (0.35)
than the same mass on the oldest of the 14 (1.0) — the opposite of the
claimed weighting direction. -/
theorem C4_counterexample :
    arComponent (List.replicate 13 (0 : ℚ) ++ [14])
      < arComponent ((14 : ℚ) :: List.replicate 13 0) := by
  simp [arComponent, List.enum, List.enumFrom, List.replicate]

/-- Claim C4 as amended: for a working history with at least 14 points, the
AR component is the sum of the last 14 points weighted by 1 - 0.05·idx,
divided by 14 — with the weights linearly decreasing in idx, so the
largest weight (1.0, at idx 0) falls on the OLDEST of the 14 points and
the smallest (0.35, at idx 13) on the most recent. -/
theorem C4_ar_weights_decay_toward_recent (h : List ℚ) (hlen : 14 ≤ h.length)
    (i j : ℕ) (hij : i < j) (_hj : j ≤ 13) :
    arComponent h =
      ((h.drop (h.length - 14)).enum.map (fun p => p.2 * arWeight p.1)).sum / 14 ∧
    arWeight j < arWeight i ∧
    arWeight 0 = 1 ∧
    arWeight 13 = 35 / 100 := by
  refine ⟨?_, ?_, ?_, ?_⟩
  · have hdrop : (h.drop (h.length - 14)).length = 14 := by
      rw [List.length_drop]
      omega
    simp only [arComponent, arWeight]
    rw [hdrop]
    norm_num
  · simp only [arWeight]
    have hq : (i : ℚ) < (j : ℚ) := by exact_mod_cast hij
    linarith
  · norm_num [arWeight]
  · norm_num [arWeight]

/-- Witness for C4's amended theorem on a 14-point history. -/
theorem C4_ar_weights_decay_toward_recent_witness :
    14 ≤ (List.replicate 14 (50 : ℚ)).length ∧ (12 : ℕ) < 13 ∧ (13 : ℕ) ≤ 13 ∧
    (arComponent (List.replicate 14 (50 : ℚ)) =
      (((List.replicate 14 (50 : ℚ)).drop ((List.replicate 14 (50 : ℚ)).length - 14)).enum.map
        (fun p => p.2 * arWeight p.1)).sum / 14 ∧
     arWeight 13 < arWeight 12) :=
  ⟨by simp, by decide, by decide,
   (C4_ar_weights_decay_toward_recent (List.replicate 14 (50 : ℚ)) (by simp)
     12 13 (by decide) (by decide)).1,
   (C4_ar_weights_decay_toward_recent (List.replicate 14 (50 : ℚ)) (by simp)
     12 13 (by decide) (by decide)).2.1⟩

/-- Claim C9: the forecast computation is deterministic — with the same
calendar (dayOfYearAt, i.e. the same "today") and equal historical
occupancy inputs, two runs of extremeSeasonalityARIMA produce identical
forecasts, seasonal patterns and final working histories.  The embedding
takes every environmental input of src/server.js lines 680-750 as an
explicit argument (the function contains no random source; its only date
use is dayOfYearAt), so determinism is equality of outputs under equal
inputs. -/
theorem C9_forecast_deterministic (dayOfYearAt : ℕ → ℕ) (h1 h2 : List ℚ)
    (days : ℕ) (heq : h1 = h2) :
    extremeSeasonalityARIMA dayOfYearAt h1 days
      = extremeSeasonalityARIMA dayOfYearAt h2 days := by
  rw [heq]

/-- Witness for C9 on a concrete three-point history over a two-day
horizon. -/
theorem C9_forecast_deterministic_witness :
    ([50, 40, 60] : List ℚ) = [50, 40, 60] ∧
    extremeSeasonalityARIMA (fun i => 100 + i) [50, 40, 60] 2
      = extremeSeasonalityARIMA (fun i => 100 + i) [50, 40, 60] 2 :=
  ⟨rfl, C9_forecast_deterministic (fun i => 100 + i) [50, 40, 60] [50, 40, 60] 2 rfl⟩

theorem arimaLoop_final_history (f : ℕ → ℕ) (n : ℕ) (k : ℕ) :
    ∀ (i : ℕ) (h : List ℚ),
    (arimaLoop f n k i h).2.2 =
      h ++ ((arimaLoop f n k i h).1.map (fun z => ((z : ℤ) : ℚ))) := by
  induction k with
  | zero =>
      intro i h
      simp [arimaLoop]
  | succ k ih =>
      intro i h
      simp only [arimaLoop]
      rw [ih (i + 1) (h ++ [((arimaStep n (f i) i h).1 : ℚ)])]
      simp [List.append_assoc]

theorem arimaLoop_forecast_length (f : ℕ → ℕ) (n : ℕ) (k : ℕ) :
    ∀ (i : ℕ) (h : List ℚ), (arimaLoop f n k i h).1.length = k := by
  induction k with
  | zero =>
      intro i h
      simp [arimaLoop]
  | succ k ih =>
      intro i h
      simp only [arimaLoop, List.length_cons]
      rw [ih]

theorem extremeSeasonalityARIMA_final_history (f : ℕ → ℕ) (h : List ℚ) (k : ℕ) :
    (extremeSeasonalityARIMA f h k).2.2 =
      h ++ ((extremeSeasonalityARIMA f h k).1.map (fun z => ((z : ℤ) : ℚ))) := by
  unfold extremeSeasonalityARIMA
  exact arimaLoop_final_history f h.length k 0 h

theorem extremeSeasonalityARIMA_forecast_length (f : ℕ → ℕ) (h : List ℚ) (k : ℕ) :
    (extremeSeasonalityARIMA f h k).1.length = k := by
  unfold extremeSeasonalityARIMA
  exact arimaLoop_forecast_length f h.length k 0 h

/-- Claim C10: the caller-supplied historicalData array is left unchanged
by the forecast step — the 30 produced values are appended only to the
freshly mapped occupancy array (src/server.js line 754 allocates it via
data.map, and the push on line 746 targets it), so after the call the
caller's array is exactly its old self while the working array is the
mapped occupancies followed by the 30 forecast values. -/
theorem C10_caller_array_unchanged (dayOfYearAt : ℕ → ℕ) (data : List HistPoint) :
    (forecastCore dayOfYearAt data).1 = data ∧
    (forecastCore dayOfYearAt data).2.1 =
      data.map (fun d => d.occupancy)
        ++ ((forecastCore dayOfYearAt data).2.2.1.map (fun z => ((z : ℤ) : ℚ))) ∧
    (forecastCore dayOfYearAt data).2.2.1.length = 30 := by
  refine ⟨rfl, ?_, ?_⟩
  · simp only [forecastCore]
    rw [extremeSeasonalityARIMA_final_history]
  · simp only [forecastCore]
    rw [extremeSeasonalityARIMA_forecast_length]
